import Mathlib

/-!
Verification of the SETBP1 literature-search pipeline
(`setbp1_literature_search.py` and `streamlit_app.py`).

The Python source is shallowly embedded: pure helpers become Lean
functions over `String`/`List Char`; network effects are passed in as
explicit oracles (`Nat → Option …`); the openpyxl worksheet becomes a
list of cell writes with a last-write-wins lookup.  Character classes
(digits, whitespace, lower-casing) are modelled over ASCII, which is
the alphabet the program's fixed keyword sets and date strings use.
All helpers are structural recursions so that concrete runs reduce in
the kernel.
-/

namespace Setbp1

/-- Split a character list at every character satisfying `p`, keeping
empty fragments (the behaviour of Python `str.split(sep)` for a
one-character separator, with `p = (· = sep)`). -/
def splitPredAux (p : Char → Bool) : List Char → List Char → List (List Char)
  | [], acc => [acc.reverse]
  | c :: rest, acc =>
    if p c then acc.reverse :: splitPredAux p rest []
    else splitPredAux p rest (c :: acc)

/-- Split a character list at every character satisfying `p`. -/
def splitPred (p : Char → Bool) (l : List Char) : List (List Char) :=
  splitPredAux p l []

/-- ASCII whitespace, the class Python `str.split()` uses on the
program's inputs. -/
def isWs (c : Char) : Bool :=
  c = ' ' || c = '\t' || c = '\n' || c = '\r'

/-- Model of Python `str.split()` (no separator): split on whitespace,
dropping empty fragments. -/
def pySplit (s : String) : List String :=
  ((splitPred isWs s.data).filter fun t => t ≠ []).map fun t => ⟨t⟩

/-- Model of Python `s.split(',')`: split at every comma, keeping
empty fragments. -/
def splitCommas (s : String) : List String :=
  (splitPred (fun c => c = ',') s.data).map fun t => ⟨t⟩

/-- Model of Python `s.strip()` (over ASCII whitespace). -/
def pyStrip (s : String) : String :=
  ⟨((s.data.dropWhile isWs).reverse.dropWhile isWs).reverse⟩

/-- Join character fragments with a separator (Python `sep.join`). -/
def intercalateChars (sep : List Char) : List (List Char) → List Char
  | [] => []
  | [x] => x
  | x :: y :: rest => x ++ sep ++ intercalateChars sep (y :: rest)

/-- Model of Python `' '.join(...)`. -/
def joinSpace (l : List String) : String :=
  ⟨intercalateChars [' '] (l.map String.data)⟩

/-- Model of Python `s.rstrip('.,;:')`: drop trailing characters that
belong to the set `.,;:`. -/
def rstripPunct (s : String) : String :=
  ⟨(s.data.reverse.dropWhile fun c => c = '.' || c = ',' || c = ';' || c = ':').reverse⟩

/-- ASCII lower-casing of one character (the program's keyword sets
are ASCII). -/
def lowerChar (c : Char) : Char :=
  if 'A' ≤ c ∧ c ≤ 'Z' then Char.ofNat (c.toNat + 32) else c

/-- Model of Python `s.lower()` over ASCII. -/
def strLower (s : String) : String :=
  ⟨s.data.map lowerChar⟩

/-- Contiguous-sublist test on character lists (Python `sub in s`). -/
def charListIsSub (pat : List Char) : List Char → Bool
  | [] => pat.isEmpty
  | c :: rest => pat.isPrefixOf (c :: rest) || charListIsSub pat rest

/-- Model of Python `pat in s` for strings (contiguous substring). -/
def strContains (s pat : String) : Bool :=
  charListIsSub pat.data s.data

/-- Model of Python `s[:n]` on strings (first `n` characters). -/
def strTake (n : Nat) (s : String) : String :=
  ⟨s.data.take n⟩

/-- Model of Python `s.replace('-', '')` used for the `YYYYMMDD`
file-name pattern. -/
def removeDashes (s : String) : String :=
  ⟨s.data.filter fun c => c ≠ '-'⟩

/-- The paper record produced by every adapter
(`pmid`/`title`/`authors`/`journal`/`year`/`doi`/`source` dict keys). -/
structure Paper where
  pmid : String
  title : String
  authors : String
  journal : String
  year : String
  doi : String
  source : String
deriving DecidableEq, Repr

/-- `extract_last_author_name`: split the author string on commas,
strip each entry, take the last entry, and return its first
whitespace-delimited token (empty string when nothing is there). -/
def extractLastAuthorName (authorsString : String) : String :=
  if authorsString = "" then ""
  else
    let authors := (splitCommas authorsString).map pyStrip
    if authors = [] then ""
    else
      let lastAuthor := authors.getLastD ""
      match pySplit lastAuthor with
      | [] => ""
      | w :: _ => w

/-- `create_summary`: keep the first `max_words` words when the title
fits, else the first `max_words - 1` words; when the title was longer
than `max_words`, strip trailing `.,;:` and append `...`.  The
`maxWords = 0` branch reproduces Python's `words[:-1]` slice. -/
def createSummary (title : String) (maxWords : Nat) : String :=
  let words := pySplit title
  let summaryWords :=
    if words.length ≤ maxWords then words.take maxWords
    else if maxWords = 0 then words.dropLast
    else words.take (maxWords - 1)
  let summary := joinSpace summaryWords
  if maxWords < words.length then rstripPunct summary ++ "..." else summary

/-- The stop-word set of `create_key_findings`. -/
def skipWords : List String :=
  ["the", "a", "an", "in", "on", "at", "to", "for", "of", "and", "with"]

/-- Model of Python `title.replace(':', ' ')`. -/
def replaceColons (title : String) : String :=
  ⟨title.data.map fun c => if c = ':' then ' ' else c⟩

/-- `create_key_findings`: replace colons by spaces, split into words,
keep a word when it is not a stop-word or when the whole title has
fewer than 10 non-stop-words, and join the first `max_words` kept
words. -/
def createKeyFindings (title : String) (maxWords : Nat) : String :=
  let words := pySplit (replaceColons title)
  let filtered := words.filter fun w =>
    !(skipWords.contains (strLower w))
      || decide ((words.filter fun x => !(skipWords.contains (strLower x))).length < 10)
  joinSpace (filtered.take maxWords)

/-- Numeric value of an ASCII digit string. -/
def natOfDigits (l : List Char) : Nat :=
  l.foldl (fun n c => n * 10 + (c.toNat - 48)) 0

/-- Leap-year test used by the `datetime` day-of-month validation. -/
def isLeapYear (y : Nat) : Bool :=
  decide (y % 4 = 0) && (decide (y % 100 ≠ 0) || decide (y % 400 = 0))

/-- Days in a month, as validated by the `datetime` constructor. -/
def daysInMonth (y m : Nat) : Nat :=
  if m = 2 then (if isLeapYear y then 29 else 28)
  else if m = 4 ∨ m = 6 ∨ m = 9 ∨ m = 11 then 30
  else 31

/-- Model of `datetime.strptime(s, '%Y-%m-%d')` (ASCII digits): a
4-digit year, a 1–2 digit month in `1..12`, a 1–2 digit day in range
for that month, separated by single dashes, with the whole string
consumed; returns the parsed `(year, month, day)`. -/
def parseDate (s : String) : Option (Nat × Nat × Nat) :=
  match splitPred (fun c => c = '-') s.data with
  | [ys, ms, ds] =>
    if ys.length = 4 ∧ ys.all Char.isDigit
        ∧ (ms.length = 1 ∨ ms.length = 2) ∧ ms.all Char.isDigit
        ∧ (ds.length = 1 ∨ ds.length = 2) ∧ ds.all Char.isDigit then
      let y := natOfDigits ys
      let m := natOfDigits ms
      let d := natOfDigits ds
      if 1 ≤ y ∧ 1 ≤ m ∧ m ≤ 12 ∧ 1 ≤ d ∧ d ≤ daysInMonth y m then some (y, m, d)
      else none
    else none
  | _ => none

/-- A date string is accepted by the CLI validation exactly when
`strptime` parses it. -/
def validDateFormat (s : String) : Bool :=
  (parseDate s).isSome

/-- Chronological order on parsed `(year, month, day)` triples. -/
def dateTripleLe (a b : Nat × Nat × Nat) : Bool :=
  decide (a.1 < b.1)
    || (decide (a.1 = b.1)
        && (decide (a.2.1 < b.2.1)
            || (decide (a.2.1 = b.2.1) && decide (a.2.2 ≤ b.2.2))))

/-- Outcome of `main` on a pair of explicit date arguments:
whether control reaches `SETBPLiteratureSearch.run()` (whose first
step is the PubMed network request) and the process exit code. -/
structure MainOutcome where
  networkAttempted : Bool
  exitCode : Nat
deriving DecidableEq, Repr

/-- `main` after argument parsing: both dates are validated with
`strptime('%Y-%m-%d')`; a failure prints an error and returns 1 with
no network activity, otherwise `run()` is invoked (network) and `main`
returns 0.  No comparison of the two dates is performed. -/
def mainFlow (startArg endArg : String) : MainOutcome :=
  if validDateFormat startArg && validDateFormat endArg then ⟨true, 0⟩
  else ⟨false, 1⟩

/-- The five buckets of `categorize_papers`. -/
inductive PCategory where
  | mechanism
  | therapeutics
  | models
  | dataset
  | other
deriving DecidableEq, Repr

/-- Trigger substrings for the mechanism bucket. -/
def mechanismWords : List String :=
  ["mechanism", "pathway", "signaling", "function", "structure"]

/-- Trigger substrings for the therapeutics bucket. -/
def therapeuticsWords : List String :=
  ["drug", "therapeutic", "treatment", "inhibitor", "trial"]

/-- Trigger substrings for the models bucket. -/
def modelWords : List String :=
  ["mouse", "mice", "rat", "model", "crispr", "cell", "in vitro"]

/-- Trigger substrings for the dataset bucket. -/
def datasetWords : List String :=
  ["cohort", "registry", "dataset", "population"]

/-- Python `any(word in title_lower for word in ws)`. -/
def containsAnyWord (t : String) (ws : List String) : Bool :=
  ws.any fun w => strContains t w

/-- The per-title decision of `categorize_papers`: lower-case the
title and test the four trigger sets in priority order. -/
def categorizeTitle (title : String) : PCategory :=
  let tl := strLower title
  if containsAnyWord tl mechanismWords then .mechanism
  else if containsAnyWord tl therapeuticsWords then .therapeutics
  else if containsAnyWord tl modelWords then .models
  else if containsAnyWord tl datasetWords then .dataset
  else .other

/-- The five category lists built by `categorize_papers`. -/
structure Categories where
  mechanism : List Paper
  therapeutics : List Paper
  models : List Paper
  dataset : List Paper
  other : List Paper
deriving DecidableEq, Repr

/-- Append one paper to the bucket chosen by `categorizeTitle`. -/
def addToCategory (p : Paper) (cs : Categories) : Categories :=
  match categorizeTitle p.title with
  | .mechanism => { cs with mechanism := p :: cs.mechanism }
  | .therapeutics => { cs with therapeutics := p :: cs.therapeutics }
  | .models => { cs with models := p :: cs.models }
  | .dataset => { cs with dataset := p :: cs.dataset }
  | .other => { cs with other := p :: cs.other }

/-- `categorize_papers`: place every paper, in list order, into the
bucket selected by its title. -/
def categorizePapers : List Paper → Categories
  | [] => ⟨[], [], [], [], []⟩
  | p :: rest => addToCategory p (categorizePapers rest)

/-- `_paper_link`: DOI URL when a DOI is present, else the PubMed URL
when a PMID is present, else empty. -/
def paperLink (p : Paper) : String :=
  if p.doi ≠ "" then "https://doi.org/" ++ p.doi
  else if p.pmid ≠ "" then "https://pubmed.ncbi.nlm.nih.gov/" ++ p.pmid ++ "/"
  else ""

/-- `_paper_link_label`: the citation label markup used by the PDF
renderer's notable-findings section. -/
def paperLinkLabel (p : Paper) : String :=
  let link := paperLink p
  if link = "" then ""
  else if p.pmid ≠ "" then
    "<link href=\"" ++ link ++ "\" color=\"blue\">PMID: " ++ p.pmid ++ "</link>"
  else if p.doi ≠ "" then
    "<link href=\"" ++ link ++ "\" color=\"blue\">DOI: " ++ p.doi ++ "</link>"
  else ""

/-- Result of one detail batch of `get_pubmed_metadata`: the records
obtained, the sleeps performed between attempts, and the number of
attempts made. -/
structure BatchOutcome where
  records : List Paper
  sleeps : List Nat
  attempts : Nat
deriving DecidableEq, Repr

/-- The retry loop of `get_pubmed_metadata` for one batch.  `oracle a`
is the parsed outcome of the network attempt numbered `a` (`none` for
an exception).  Driven by the remaining `fuel`, with the current
0-based attempt recovered as `maxRetries - fuel`. -/
def runBatchAux (oracle : Nat → Option (List Paper)) (maxRetries : Nat) :
    Nat → BatchOutcome
  | 0 => ⟨[], [], 0⟩
  | fuel + 1 =>
    let attempt := maxRetries - (fuel + 1)
    match oracle attempt with
    | some recs => ⟨recs, [], 1⟩
    | none =>
      if fuel = 0 then ⟨[], [], 1⟩
      else
        let r := runBatchAux oracle maxRetries fuel
        ⟨r.records, (attempt + 1) * 2 :: r.sleeps, r.attempts + 1⟩

/-- One batch with the code's `max_retries = 3`. -/
def runBatch (oracle : Nat → Option (List Paper)) : BatchOutcome :=
  runBatchAux oracle 3 3

/-- Python `pmids[i:i + batch_size]` chunking over
`range(0, len(pmids), batch_size)`. -/
def chunkList {α : Type} (n : Nat) (l : List α) : List (List α) :=
  match l with
  | [] => []
  | x :: xs =>
    if _hn : n = 0 then []
    else (x :: xs).take n :: chunkList n ((x :: xs).drop n)
termination_by l.length
decreasing_by
  simp only [List.length_drop, List.length_cons]
  omega

/-- The batch loop of `get_pubmed_metadata`: process the batches in
order, each through the retry loop, concatenating whatever records
they contribute.  `oracle j a` is the outcome of attempt `a` on the
batch with index `j`. -/
def metadataLoop (oracle : Nat → Nat → Option (List Paper)) :
    Nat → List (List String) → List Paper
  | _, [] => []
  | j, _ :: rest => (runBatch (oracle j)).records ++ metadataLoop oracle (j + 1) rest

/-- `get_pubmed_metadata`: chunk the PMIDs and run the batch loop. -/
def getPubmedMetadata (pmids : List String) (batchSize : Nat)
    (oracle : Nat → Nat → Option (List Paper)) : List Paper :=
  metadataLoop oracle 0 (chunkList batchSize pmids)

/-- What a run reports and writes: the total paper count printed and
the files produced. -/
structure RunResult where
  totalPapers : Nat
  files : List String
deriving DecidableEq, Repr

/-- `run`: gather PubMed metadata (only when the search returned any
PMIDs) and the two preprint lists, concatenate, and stop with no
output files when the combined list is empty; otherwise write the two
date-stamped reports.  Adapter outcomes are passed in explicitly. -/
def runSearch (endDate outputDir : String) (pmids : List String)
    (oracle : Nat → Nat → Option (List Paper))
    (biorxivPapers medrxivPapers : List Paper) : RunResult :=
  let pubmedPapers := if pmids = [] then [] else getPubmedMetadata pmids 100 oracle
  let allPapers := pubmedPapers ++ biorxivPapers ++ medrxivPapers
  if allPapers = [] then ⟨0, []⟩
  else
    let endFmt := removeDashes endDate
    ⟨allPapers.length,
     [outputDir ++ "/" ++ endFmt ++ "-SETBP1-Literature-Data.xlsx",
      outputDir ++ "/" ++ endFmt ++ "-SETBP1-Literature-Summary.pdf"]⟩

/-- A concrete paper used to instantiate the general theorems. -/
def paperA : Paper :=
  ⟨"12345", "SETBP1 paper", "Last F", "J", "2026", "10.1000/xyz", "PubMed"⟩

/-- A batch oracle whose batch 0 always fails and whose other batches
succeed immediately. -/
def oracleW : Nat → Nat → Option (List Paper) :=
  fun j _a => if j = 0 then none else some [paperA]

/-- One item of a bioRxiv/medRxiv listing page, with the fields the
adapter reads. -/
structure PreItem where
  title : String
  abstract : String
  authors : String
  doi : String
  date : String
deriving DecidableEq, Repr

/-- One parsed listing page: its `collection` and the reported running
`total` from `messages[0]`. -/
structure PrePage where
  collection : List PreItem
  total : Nat
deriving DecidableEq, Repr

/-- `SETBP1_KEYWORDS`, the relevance-filter keyword list. -/
def setbp1Keywords : List String :=
  ["setbp1", "schinzel-giedion", "schinzel giedion", "sgd", "set binding protein 1"]

/-- `_is_setbp1_relevant`: case-insensitive substring match of any
keyword against `title + ' ' + abstract`. -/
def isSetbp1Relevant (title abstract : String) : Bool :=
  setbp1Keywords.any fun kw => strContains (strLower (title ++ " " ++ abstract)) kw

/-- The paper record built for one kept preprint item. -/
def preprintPaper (server : String) (item : PreItem) : Paper :=
  { pmid := "", title := item.title, authors := item.authors,
    journal := server ++ " (preprint)", year := strTake 4 item.date,
    doi := item.doi, source := server }

/-- The records one page contributes: its relevance-filtered items as
paper records. -/
def keptPapers (server : String) (page : PrePage) : List Paper :=
  (page.collection.filter fun it => isSetbp1Relevant it.title it.abstract).map
    (preprintPaper server)

/-- The pagination loop of `_search_preprint_server`.  `oracle cursor`
is the parsed page at that cursor (`none` for a transport or parse
error).  Returns the accumulated papers and the trace of cursors
fetched.  A fetch error, an empty collection, or reaching the reported
total each stop the loop; the cursor advances by the fixed page size
100.  `fuel` bounds the unrolling of the Python `while True`. -/
def searchLoop (server : String) (oracle : Nat → Option PrePage) :
    Nat → Nat → List Paper × List Nat
  | 0, _ => ([], [])
  | fuel + 1, cursor =>
    match oracle cursor with
    | none => ([], [cursor])
    | some page =>
      if page.collection = [] then ([], [cursor])
      else if page.total ≤ cursor + 100 then (keptPapers server page, [cursor])
      else
        let rest := searchLoop server oracle fuel (cursor + 100)
        (keptPapers server page ++ rest.1, cursor :: rest.2)

/-- `_search_preprint_server`: run the pagination loop from cursor 0. -/
def searchPreprintServer (server : String) (oracle : Nat → Option PrePage)
    (fuel : Nat) : List Paper × List Nat :=
  searchLoop server oracle fuel 0

/-- The page oracle of a provider whose listing consists of the given
pages (in cursor order, one per 100-step) and which fails at every
later cursor. -/
def oracleOfPages (pages : List PrePage) (cursor : Nat) : Option PrePage :=
  pages.get? (cursor / 100)

/-- A concrete relevant preprint item (keyword in the title). -/
def itemA : PreItem :=
  ⟨"SETBP1 in development", "an abstract", "Doe J", "10.1101/x1", "2026-02-03"⟩

/-- A concrete relevant preprint item (keyword in the abstract). -/
def itemB : PreItem :=
  ⟨"Some other work", "this mentions setbp1 briefly", "Roe K", "10.1101/x2", "2026-02-04"⟩

/-- Two listing pages whose reported totals keep pagination going, so
that the fetch of the third page fails. -/
def pagesW : List PrePage :=
  [⟨[itemA], 250⟩, ⟨[itemB], 250⟩]

/-- One worksheet cell write of `create_excel_report`
(`ws.cell(row=…, column=…, value=…)`, plus the optional
`cell.hyperlink = …` assignment). -/
structure Cell where
  row : Nat
  col : Nat
  value : String
  hyperlink : Option String
deriving DecidableEq, Repr

/-- The `headers` list written to row 1. -/
def headerNames : List String :=
  ["", "", "", "Summary", "Last Author", "Journal", "Key Findings", "", "", "Link"]

/-- The header-row writes (`enumerate(headers, 1)`). -/
def headerCells : List Cell :=
  (headerNames.enumFrom 1).map fun ic => ⟨1, ic.1, ic.2, none⟩

/-- The link chosen for column J in `create_excel_report`: DOI URL if
present, else PubMed URL if present, else empty (the code's inline
duplicate of `_paper_link`). -/
def excelLink (p : Paper) : String :=
  if p.doi ≠ "" then "https://doi.org/" ++ p.doi
  else if p.pmid ≠ "" then "https://pubmed.ncbi.nlm.nih.gov/" ++ p.pmid ++ "/"
  else ""

/-- The cell writes for one data row: columns A–C blank, D the short
summary (`max_words=7`), E the last-author name, F the journal, G the
key findings (`max_words=20`), H–I blank; column J is written (with a
hyperlink) only when the link is non-empty. -/
def paperCells (r : Nat) (p : Paper) : List Cell :=
  [⟨r, 1, "", none⟩, ⟨r, 2, "", none⟩, ⟨r, 3, "", none⟩,
   ⟨r, 4, createSummary p.title 7, none⟩,
   ⟨r, 5, extractLastAuthorName p.authors, none⟩,
   ⟨r, 6, p.journal, none⟩,
   ⟨r, 7, createKeyFindings p.title 20, none⟩,
   ⟨r, 8, "", none⟩, ⟨r, 9, "", none⟩]
    ++ (if excelLink p ≠ "" then [⟨r, 10, excelLink p, some (excelLink p)⟩] else [])

/-- The data-row writes for the paper list starting at the given row
(`enumerate(papers, start=2)`). -/
def dataCells : Nat → List Paper → List Cell
  | _, [] => []
  | r, p :: rest => paperCells r p ++ dataCells (r + 1) rest

/-- `create_excel_report` as its sequence of cell writes: the header
row, then one data row per paper starting at row 2. -/
def createExcelReport (papers : List Paper) : List Cell :=
  headerCells ++ dataCells 2 papers

/-- The last write at a `(row, col)` position, if any (later writes to
the same cell win, as in openpyxl). -/
def lastCellAt (cells : List Cell) (r c : Nat) : Option Cell :=
  cells.reverse.find? fun k => decide (k.row = r) && decide (k.col = c)

/-- The value an unwritten openpyxl cell reads back as is blank. -/
def cellValueAt (cells : List Cell) (r c : Nat) : String :=
  match lastCellAt cells r c with
  | some k => k.value
  | none => ""

/-- The hyperlink of a cell, `none` when the cell was never written or
never given one. -/
def cellHyperlinkAt (cells : List Cell) (r c : Nat) : Option String :=
  match lastCellAt cells r c with
  | some k => k.hyperlink
  | none => none

/-- The contract of one rendered spreadsheet row (plus the header
labels): columns A–C blank, D the short summary, E the primary-author
name, F the venue, G the key-finding string, H–I blank, and J the
DOI-based URL (as a true hyperlink) when a DOI is present, else the
PMID-based URL when a PMID is present, else a blank cell with no
hyperlink. -/
def excelRowSpec (papers : List Paper) (i : Nat) (p : Paper) : Prop :=
  cellValueAt (createExcelReport papers) 1 4 = "Summary" ∧
  cellValueAt (createExcelReport papers) 1 5 = "Last Author" ∧
  cellValueAt (createExcelReport papers) 1 6 = "Journal" ∧
  cellValueAt (createExcelReport papers) 1 7 = "Key Findings" ∧
  cellValueAt (createExcelReport papers) 1 10 = "Link" ∧
  cellValueAt (createExcelReport papers) (2 + i) 1 = "" ∧
  cellValueAt (createExcelReport papers) (2 + i) 2 = "" ∧
  cellValueAt (createExcelReport papers) (2 + i) 3 = "" ∧
  cellValueAt (createExcelReport papers) (2 + i) 4 = createSummary p.title 7 ∧
  cellValueAt (createExcelReport papers) (2 + i) 5 = extractLastAuthorName p.authors ∧
  cellValueAt (createExcelReport papers) (2 + i) 6 = p.journal ∧
  cellValueAt (createExcelReport papers) (2 + i) 7 = createKeyFindings p.title 20 ∧
  cellValueAt (createExcelReport papers) (2 + i) 8 = "" ∧
  cellValueAt (createExcelReport papers) (2 + i) 9 = "" ∧
  (p.doi ≠ "" →
    cellValueAt (createExcelReport papers) (2 + i) 10 = "https://doi.org/" ++ p.doi ∧
    cellHyperlinkAt (createExcelReport papers) (2 + i) 10 =
      some ("https://doi.org/" ++ p.doi)) ∧
  (p.doi = "" → p.pmid ≠ "" →
    cellValueAt (createExcelReport papers) (2 + i) 10 =
      "https://pubmed.ncbi.nlm.nih.gov/" ++ p.pmid ++ "/" ∧
    cellHyperlinkAt (createExcelReport papers) (2 + i) 10 =
      some ("https://pubmed.ncbi.nlm.nih.gov/" ++ p.pmid ++ "/")) ∧
  (p.doi = "" → p.pmid = "" →
    cellValueAt (createExcelReport papers) (2 + i) 10 = "" ∧
    cellHyperlinkAt (createExcelReport papers) (2 + i) 10 = none)

end Setbp1

namespace Setbp1

/-- Claim C2 counterexample: on the authors string
`"Jane Doe, John Q. Smith"` the code takes the last comma-separated
entry `"John Q. Smith"` and returns its FIRST whitespace token
`"John"`, not the surname `"Smith"` stated by the claim. -/
theorem extractLastAuthorName_not_smith :
    extractLastAuthorName "Jane Doe, John Q. Smith" = "John" ∧
      extractLastAuthorName "Jane Doe, John Q. Smith" ≠ "Smith" := by
  constructor
  · rfl
  · decide

/-- Claim C2 (amended): the primary-author derivation maps
`"Jane Doe, John Q. Smith"` to `"John"` (the first whitespace token of
the last comma-separated author entry), and the empty authors string to
`""`. -/
theorem extractLastAuthorName_spec :
    extractLastAuthorName "Jane Doe, John Q. Smith" = "John" ∧
      extractLastAuthorName "" = "" := by
  constructor <;> rfl

/-- Claim C3: for a word limit `N ≥ 1`, a title of at most `N` words is
returned as its words joined unchanged with no ellipsis; a longer title
is cut to its first `N - 1` words, trailing `.,;:` punctuation
stripped, with `...` appended; in particular the 9-word title
`"A B C D E F G H I"` with `N = 7` yields `"A B C D E F..."` and
`"A B C"` is returned unchanged. -/
theorem createSummary_spec (title : String) (N : Nat) (hN : 1 ≤ N) :
    ((pySplit title).length ≤ N →
        createSummary title N = joinSpace ((pySplit title).take N)) ∧
      (N < (pySplit title).length →
        createSummary title N =
          rstripPunct (joinSpace ((pySplit title).take (N - 1))) ++ "...") ∧
      createSummary "A B C D E F G H I" 7 = "A B C D E F..." ∧
      createSummary "A B C" 7 = "A B C" := by
  refine ⟨?_, ?_, by rfl, by rfl⟩
  · intro h
    unfold createSummary
    simp only [if_pos h, if_neg (by omega : ¬ N < (pySplit title).length)]
  · intro h
    unfold createSummary
    simp only [if_neg (by omega : ¬ (pySplit title).length ≤ N),
      if_neg (by omega : ¬ N = 0), if_pos h]

/-- Claim C3 witness: the general statement instantiated at the 9-word
title with `N = 7`. -/
theorem createSummary_spec_witness :
    (1 ≤ 7) ∧
      (7 < (pySplit "A B C D E F G H I").length →
        createSummary "A B C D E F G H I" 7 =
          rstripPunct (joinSpace ((pySplit "A B C D E F G H I").take 6)) ++ "...") :=
  ⟨by decide, (createSummary_spec "A B C D E F G H I" 7 (by decide)).2.1⟩

/-- Claim C4: the key-finding string replaces colons by spaces, splits
into words, drops case-insensitive stop-words exactly when at least 10
of the words are non-stop-words (otherwise all words are kept), and
joins the first at most 20 remaining words in original order. -/
theorem createKeyFindings_spec (title : String) :
    createKeyFindings title 20 =
      (let words := pySplit (replaceColons title)
       let nonStop := words.filter fun w => !(skipWords.contains (strLower w))
       if 10 ≤ nonStop.length then joinSpace (nonStop.take 20)
       else joinSpace (words.take 20)) := by
  unfold createKeyFindings
  dsimp only
  by_cases h :
      ((pySplit (replaceColons title)).filter fun x =>
        !(skipWords.contains (strLower x))).length < 10
  · have hfilter :
        ((pySplit (replaceColons title)).filter fun w =>
          !(skipWords.contains (strLower w))
            || decide (((pySplit (replaceColons title)).filter fun x =>
                !(skipWords.contains (strLower x))).length < 10)) =
          pySplit (replaceColons title) := by
      rw [List.filter_eq_self]
      intro a _
      rw [decide_eq_true h, Bool.or_true]
    rw [hfilter, if_neg (by omega)]
  · have hfilter :
        ((pySplit (replaceColons title)).filter fun w =>
          !(skipWords.contains (strLower w))
            || decide (((pySplit (replaceColons title)).filter fun x =>
                !(skipWords.contains (strLower x))).length < 10)) =
          ((pySplit (replaceColons title)).filter fun w =>
            !(skipWords.contains (strLower w))) := by
      apply List.filter_congr
      intro a _
      rw [decide_eq_false h, Bool.or_false]
    rw [hfilter, if_pos (by omega)]

/-- Claim C1 counterexample: the pair `("2026-02-08", "2026-02-01")`
consists of two well-formed dates with the start after the end, yet
the CLI does not reject it: control reaches the network search and the
process exits 0, contradicting the claimed pre-network rejection with
a non-zero exit. -/
theorem mainFlow_chronological_not_rejected :
    parseDate "2026-02-08" = some (2026, 2, 8) ∧
      parseDate "2026-02-01" = some (2026, 2, 1) ∧
      dateTripleLe (2026, 2, 8) (2026, 2, 1) = false ∧
      mainFlow "2026-02-08" "2026-02-01" = ⟨true, 0⟩ := by
  refine ⟨by decide, by decide, by decide, by decide⟩

/-- Claim C1 (amended): a pair containing a malformed date (one that
`strptime('%Y-%m-%d')` rejects) is rejected before any network call
and the process exits 1; but any pair of well-formed dates — including
a chronologically invalid one — proceeds to the network search and
exits 0. -/
theorem mainFlow_spec (s e : String) :
    (¬(validDateFormat s = true ∧ validDateFormat e = true) →
        mainFlow s e = ⟨false, 1⟩) ∧
      (validDateFormat s = true → validDateFormat e = true →
        mainFlow s e = ⟨true, 0⟩) := by
  constructor
  · intro h
    unfold mainFlow
    rw [if_neg]
    intro hb
    rw [Bool.and_eq_true] at hb
    exact h hb
  · intro hs he
    unfold mainFlow
    rw [if_pos (by rw [hs, he]; rfl)]

/-- Claim C1 witness: a slash-formatted start date is rejected with
exit 1 and no network activity; a well-formed reversed pair proceeds
with exit 0. -/
theorem mainFlow_spec_witness :
    mainFlow "2026/02/01" "2026-02-08" = ⟨false, 1⟩ ∧
      mainFlow "2026-02-08" "2026-02-01" = ⟨true, 0⟩ :=
  ⟨(mainFlow_spec "2026/02/01" "2026-02-08").1 (by decide),
   (mainFlow_spec "2026-02-08" "2026-02-01").2 (by decide) (by decide)⟩

theorem categorizePapers_eq_filters (l : List Paper) :
    categorizePapers l =
      ⟨l.filter fun p => decide (categorizeTitle p.title = PCategory.mechanism),
       l.filter fun p => decide (categorizeTitle p.title = PCategory.therapeutics),
       l.filter fun p => decide (categorizeTitle p.title = PCategory.models),
       l.filter fun p => decide (categorizeTitle p.title = PCategory.dataset),
       l.filter fun p => decide (categorizeTitle p.title = PCategory.other)⟩ := by
  induction l with
  | nil => rfl
  | cons p rest ih =>
    show addToCategory p (categorizePapers rest) = _
    rw [ih]
    unfold addToCategory
    cases h : categorizeTitle p.title <;>
      simp [h, List.filter_cons]

/-- Claim C5: `categorize_papers` partitions the paper list into the
five buckets according to the per-title decision (so each record lands
in exactly one bucket, in list order); the decision tests the trigger
sets in the order mechanism, therapeutics, models, dataset, first
match winning — in particular a title with both a mechanism and a
therapeutics term is classified mechanism, and a title matching no
trigger set lands in the catch-all bucket. -/
theorem categorizePapers_spec (papers : List Paper) (title : String) :
    ((categorizePapers papers).mechanism =
        papers.filter (fun p => decide (categorizeTitle p.title = PCategory.mechanism)) ∧
      (categorizePapers papers).therapeutics =
        papers.filter (fun p => decide (categorizeTitle p.title = PCategory.therapeutics)) ∧
      (categorizePapers papers).models =
        papers.filter (fun p => decide (categorizeTitle p.title = PCategory.models)) ∧
      (categorizePapers papers).dataset =
        papers.filter (fun p => decide (categorizeTitle p.title = PCategory.dataset)) ∧
      (categorizePapers papers).other =
        papers.filter (fun p => decide (categorizeTitle p.title = PCategory.other))) ∧
      (containsAnyWord (strLower title) mechanismWords = true →
        containsAnyWord (strLower title) therapeuticsWords = true →
        categorizeTitle title = PCategory.mechanism) ∧
      (containsAnyWord (strLower title) mechanismWords = false →
        containsAnyWord (strLower title) therapeuticsWords = false →
        containsAnyWord (strLower title) modelWords = false →
        containsAnyWord (strLower title) datasetWords = false →
        categorizeTitle title = PCategory.other) := by
  refine ⟨?_, ?_, ?_⟩
  · rw [categorizePapers_eq_filters]
    exact ⟨rfl, rfl, rfl, rfl, rfl⟩
  · intro hm _ht
    unfold categorizeTitle
    rw [if_pos hm]
  · intro hm ht hmo hd
    unfold categorizeTitle
    rw [if_neg (by rw [hm]; exact Bool.false_ne_true),
      if_neg (by rw [ht]; exact Bool.false_ne_true),
      if_neg (by rw [hmo]; exact Bool.false_ne_true),
      if_neg (by rw [hd]; exact Bool.false_ne_true)]

/-- Claim C5 witness: a title with both a mechanism and a therapeutics
term goes to mechanism; a title matching no trigger set goes to the
catch-all bucket. -/
theorem categorizePapers_spec_witness :
    categorizeTitle "The mechanism of a new drug" = PCategory.mechanism ∧
      categorizeTitle "untitled notes" = PCategory.other :=
  ⟨(categorizePapers_spec [] "The mechanism of a new drug").2.1 (by decide) (by decide),
   (categorizePapers_spec [] "untitled notes").2.2 (by decide) (by decide) (by decide)
     (by decide)⟩

theorem string_append_ne_empty (s t : String) (hs : s ≠ "") : s ++ t ≠ "" := by
  intro h
  apply hs
  have hd := congrArg String.data h
  rw [String.data_append] at hd
  have h1 : s.data = [] := (List.append_eq_nil.mp hd).1
  cases s
  cases t
  simp_all

/-- Claim C10: for a paper with both a PMID and a DOI, the PDF
notable-findings citation label displays `PMID: <pmid>` while its
hyperlink target is the DOI resolver URL — the displayed identifier
and the link destination disagree. -/
theorem paperLinkLabel_spec (p : Paper) (hpmid : p.pmid ≠ "") (hdoi : p.doi ≠ "") :
    paperLinkLabel p =
      "<link href=\"" ++ ("https://doi.org/" ++ p.doi) ++ "\" color=\"blue\">PMID: "
        ++ p.pmid ++ "</link>" := by
  unfold paperLinkLabel paperLink
  rw [if_pos hdoi]
  rw [if_neg (string_append_ne_empty "https://doi.org/" p.doi (by decide))]
  rw [if_pos hpmid]

/-- Claim C10 witness: the label computed for a concrete paper holding
both identifiers. -/
theorem paperLinkLabel_spec_witness :
    paperLinkLabel paperA =
      "<link href=\"" ++ ("https://doi.org/" ++ "10.1000/xyz") ++ "\" color=\"blue\">PMID: "
        ++ "12345" ++ "</link>" :=
  paperLinkLabel_spec paperA (by decide) (by decide)

theorem runBatch_eq (o : Nat → Option (List Paper)) :
    runBatch o =
      match o 0 with
      | some r => ⟨r, [], 1⟩
      | none =>
        match o 1 with
        | some r => ⟨r, [2], 2⟩
        | none =>
          match o 2 with
          | some r => ⟨r, [2, 4], 3⟩
          | none => ⟨[], [2, 4], 3⟩ := by
  cases h0 : o 0 <;> cases h1 : o 1 <;> cases h2 : o 2 <;>
    simp [runBatch, runBatchAux, h0, h1, h2]

theorem metadataLoop_eq (oracle : Nat → Nat → Option (List Paper))
    (bs : List (List String)) : ∀ j : Nat,
    metadataLoop oracle j bs =
      ((List.range bs.length).map fun k => (runBatch (oracle (j + k))).records).flatten := by
  induction bs with
  | nil => intro j; simp [metadataLoop]
  | cons b rest ih =>
    intro j
    rw [show metadataLoop oracle j (b :: rest) =
        (runBatch (oracle j)).records ++ metadataLoop oracle (j + 1) rest from rfl]
    rw [ih (j + 1), List.length_cons, List.range_succ_eq_map]
    rw [List.map_cons, List.flatten_cons, List.map_map, Nat.add_zero]
    congr 1
    apply congrArg
    apply List.map_congr_left
    intro k _
    show (runBatch (oracle (j + 1 + k))).records = (runBatch (oracle (j + Nat.succ k))).records
    rw [show j + 1 + k = j + Nat.succ k by omega]

/-- Claim C7: the metadata fetch is the concatenation, over the
batches in order, of each batch's retry outcome; every batch is
attempted at most 3 times; between consecutive attempts the code
sleeps `attempt × 2` seconds (so the sleep list is a prefix of
`[2, 4]`); a batch failing all attempts contributes no records; and a
batch succeeding at some attempt contributes exactly the records of
its first successful attempt, which therefore appear in the returned
metadata list. -/
theorem getPubmedMetadata_spec (pmids : List String)
    (oracle : Nat → Nat → Option (List Paper)) :
    getPubmedMetadata pmids 100 oracle =
      ((List.range (chunkList 100 pmids).length).map
        fun j => (runBatch (oracle j)).records).flatten ∧
      ∀ o : Nat → Option (List Paper),
        (runBatch o).attempts ≤ 3 ∧
          (runBatch o).sleeps = List.take ((runBatch o).attempts - 1) [2, 4] ∧
          (o 0 = none → o 1 = none → o 2 = none → (runBatch o).records = []) ∧
          ∀ r : List Paper,
            (o 0 = some r ∨ (o 0 = none ∧ o 1 = some r) ∨
              (o 0 = none ∧ o 1 = none ∧ o 2 = some r)) →
            (runBatch o).records = r := by
  constructor
  · unfold getPubmedMetadata
    rw [metadataLoop_eq oracle (chunkList 100 pmids) 0]
    apply congrArg
    apply List.map_congr_left
    intro k _
    rw [Nat.zero_add]
  · intro o
    rw [runBatch_eq o]
    cases h0 : o 0 <;> cases h1 : o 1 <;> cases h2 : o 2 <;>
      simp [h0, h1, h2]

/-- Claim C7 witness: with the oracle whose batch 0 always fails and
batch 1 succeeds immediately, the failed batch contributes no records
and the successful batch contributes its records. -/
theorem getPubmedMetadata_spec_witness :
    (runBatch (oracleW 0)).records = [] ∧
      (runBatch (oracleW 1)).records = [paperA] :=
  ⟨(((getPubmedMetadata_spec [] oracleW).2 (oracleW 0)).2.2.1) rfl rfl rfl,
   (((getPubmedMetadata_spec [] oracleW).2 (oracleW 1)).2.2.2) [paperA] (Or.inl rfl)⟩

/-- Claim C9: when the PubMed search returns no PMIDs and both
preprint adapters return empty lists, the run completes (the embedding
is a total function — no exception path exists on this branch),
reports a total of zero papers, and produces no output files. -/
theorem runSearch_empty_spec (endDate outputDir : String)
    (oracle : Nat → Nat → Option (List Paper)) :
    runSearch endDate outputDir [] oracle [] [] = ⟨0, []⟩ := by
  rfl

theorem searchLoop_pages (server : String) (oracle : Nat → Option PrePage) :
    ∀ (pages : List PrePage) (fuel c₀ : Nat),
      (∀ i, i ≤ pages.length → oracle (c₀ + i * 100) = pages.get? i) →
      (∀ p ∈ pages, p.collection ≠ []) →
      (∀ i, i < pages.length → c₀ + (i + 1) * 100 < (pages.getD i ⟨[], 0⟩).total) →
      pages.length < fuel →
      searchLoop server oracle fuel c₀ =
        ((pages.map (keptPapers server)).flatten,
         (List.range (pages.length + 1)).map fun i => c₀ + i * 100) := by
  intro pages
  induction pages with
  | nil =>
    intro fuel c₀ hor _hne _htot hfuel
    cases fuel with
    | zero => omega
    | succ f =>
      have h0 : oracle c₀ = none := by
        have h := hor 0 (Nat.le_refl 0)
        simpa using h
      simp [searchLoop, h0, List.range_succ]
  | cons pg tl ih =>
    intro fuel c₀ hor hne htot hfuel
    cases fuel with
    | zero => omega
    | succ f =>
      have h0 : oracle c₀ = some pg := by
        have h := hor 0 (Nat.zero_le _)
        simpa using h
      have hcoll : pg.collection ≠ [] := hne pg (List.mem_cons_self _ _)
      have htot0 : c₀ + 100 < pg.total := by
        have h := htot 0 (Nat.succ_pos _)
        simpa using h
      have hor2 : ∀ i, i ≤ tl.length → oracle (c₀ + 100 + i * 100) = tl.get? i := by
        intro i hi
        have h := hor (i + 1) (Nat.succ_le_succ hi)
        rw [show c₀ + (i + 1) * 100 = c₀ + 100 + i * 100 from by omega] at h
        simpa using h
      have hne2 : ∀ p ∈ tl, p.collection ≠ [] := fun p hp =>
        hne p (List.mem_cons_of_mem _ hp)
      have htot2 : ∀ i, i < tl.length →
          c₀ + 100 + (i + 1) * 100 < (tl.getD i ⟨[], 0⟩).total := by
        intro i hi
        have h := htot (i + 1) (Nat.succ_lt_succ hi)
        rw [show c₀ + (i + 1 + 1) * 100 = c₀ + 100 + (i + 1) * 100 from by omega] at h
        simpa using h
      have hrec := ih f (c₀ + 100) hor2 hne2 htot2 (by
        simp only [List.length_cons] at hfuel
        omega)
      show searchLoop server oracle (f + 1) c₀ = _
      rw [searchLoop]
      simp only [h0]
      rw [if_neg hcoll, if_neg (by omega : ¬ pg.total ≤ c₀ + 100)]
      rw [hrec]
      dsimp only
      rw [List.map_cons, List.flatten_cons]
      apply congrArg
      rw [List.length_cons, List.range_succ_eq_map (tl.length + 1), List.map_cons,
        List.map_map]
      rw [show c₀ + 0 * 100 = c₀ from by omega]
      apply congrArg
      apply List.map_congr_left
      intro k _
      show c₀ + 100 + k * 100 = c₀ + Nat.succ k * 100
      omega

/-- Claim C8: when a provider's listing consists of `pages` (each
non-empty, each reporting a total that keeps pagination going) and the
fetch of the next page fails, the adapter returns exactly the
relevance-filtered records accumulated from the pages fetched before
the failure; the cursor trace is `0, 100, …` ending at the failed
page, and it has no duplicates — no page (hence no record) is ever
retried.  The failure stops this provider's pagination only: each
provider is a separate `searchPreprintServer` call on its own oracle. -/
theorem searchPreprintServer_spec (server : String) (pages : List PrePage)
    (fuel : Nat)
    (hne : ∀ p ∈ pages, p.collection ≠ [])
    (htot : ∀ i, i < pages.length → (i + 1) * 100 < (pages.getD i ⟨[], 0⟩).total)
    (hfuel : pages.length < fuel) :
    searchPreprintServer server (oracleOfPages pages) fuel =
        ((pages.map (keptPapers server)).flatten,
         (List.range (pages.length + 1)).map fun i => i * 100) ∧
      ((List.range (pages.length + 1)).map fun i => i * 100).Nodup := by
  constructor
  · have hor : ∀ i, i ≤ pages.length →
        oracleOfPages pages (0 + i * 100) = pages.get? i := by
      intro i _hi
      unfold oracleOfPages
      rw [Nat.zero_add, Nat.mul_div_cancel i (by omega : 0 < 100)]
    have htot0 : ∀ i, i < pages.length →
        0 + (i + 1) * 100 < (pages.getD i ⟨[], 0⟩).total := by
      intro i hi
      rw [Nat.zero_add]
      exact htot i hi
    have h := searchLoop_pages server (oracleOfPages pages) pages fuel 0 hor hne htot0 hfuel
    unfold searchPreprintServer
    rw [h]
    apply congrArg
    apply List.map_congr_left
    intro k _
    omega
  · exact (List.nodup_range _).map (fun a b h => by omega)

/-- Claim C8 witness: two non-empty pages with totals that keep
pagination going, followed by a failing third fetch: the adapter
returns the records of both fetched pages and the trace
`[0, 100, 200]` with the failing cursor fetched once. -/
theorem searchPreprintServer_spec_witness :
    searchPreprintServer "biorxiv" (oracleOfPages pagesW) 3 =
        ((pagesW.map (keptPapers "biorxiv")).flatten,
         (List.range (pagesW.length + 1)).map fun i => i * 100) ∧
      ((List.range (pagesW.length + 1)).map fun i => i * 100).Nodup :=
  searchPreprintServer_spec "biorxiv" pagesW 3 (by decide) (by decide) (by decide)

theorem lastCellAt_append (cs1 cs2 : List Cell) (r c : Nat) :
    lastCellAt (cs1 ++ cs2) r c = (lastCellAt cs2 r c).or (lastCellAt cs1 r c) := by
  unfold lastCellAt
  rw [List.reverse_append, List.find?_append]

theorem lastCellAt_of_row_ne (cs : List Cell) (r c : Nat)
    (h : ∀ k ∈ cs, k.row ≠ r) : lastCellAt cs r c = none := by
  unfold lastCellAt
  rw [List.find?_eq_none]
  intro x hx
  rw [List.mem_reverse] at hx
  simp [h x hx]

theorem mem_paperCells_row (k : Cell) (r : Nat) (p : Paper)
    (h : k ∈ paperCells r p) : k.row = r := by
  unfold paperCells at h
  rw [List.mem_append] at h
  rcases h with h | h
  · simp only [List.mem_cons, List.not_mem_nil, or_false] at h
    rcases h with rfl | rfl | rfl | rfl | rfl | rfl | rfl | rfl | rfl <;> rfl
  · by_cases hl : excelLink p ≠ ""
    · rw [if_pos hl, List.mem_singleton] at h
      subst h
      rfl
    · rw [if_neg hl] at h
      exact absurd h (List.not_mem_nil k)

theorem dataCells_row_ge (k : Cell) (papers : List Paper) :
    ∀ start : Nat, k ∈ dataCells start papers → start ≤ k.row := by
  induction papers with
  | nil =>
    intro start h
    simp [dataCells] at h
  | cons q tl ih =>
    intro start h
    simp only [dataCells] at h
    rw [List.mem_append] at h
    rcases h with h | h
    · exact le_of_eq (mem_paperCells_row k start q h).symm
    · have h2 := ih (start + 1) h
      omega

theorem mem_headerCells_row (k : Cell) (h : k ∈ headerCells) : k.row = 1 := by
  unfold headerCells at h
  rw [List.mem_map] at h
  obtain ⟨ic, -, rfl⟩ := h
  rfl

theorem dataCells_lookup (papers : List Paper) :
    ∀ (start i : Nat) (p : Paper), papers.get? i = some p → ∀ c : Nat,
      lastCellAt (dataCells start papers) (start + i) c =
        lastCellAt (paperCells (start + i) p) (start + i) c := by
  induction papers with
  | nil =>
    intro start i p h c
    simp at h
  | cons q tl ih =>
    intro start i p h c
    simp only [dataCells]
    rw [lastCellAt_append]
    cases i with
    | zero =>
      have hq : q = p := by simpa using h
      subst hq
      have hrest : lastCellAt (dataCells (start + 1) tl) (start + 0) c = none := by
        apply lastCellAt_of_row_ne
        intro k hk
        have h2 := dataCells_row_ge k tl (start + 1) hk
        omega
      rw [hrest, Option.none_or, Nat.add_zero]
    | succ n =>
      have hhead : lastCellAt (paperCells start q) (start + (n + 1)) c = none := by
        apply lastCellAt_of_row_ne
        intro k hk
        rw [mem_paperCells_row k start q hk]
        omega
      rw [hhead, Option.or_none]
      have h2 : tl.get? n = some p := by simpa using h
      have h3 := ih (start + 1) n p h2 c
      rw [show start + (n + 1) = start + 1 + n from by omega]
      exact h3

theorem report_data_lookup (papers : List Paper) (i : Nat) (p : Paper)
    (h : papers.get? i = some p) (c : Nat) :
    lastCellAt (createExcelReport papers) (2 + i) c =
      lastCellAt (paperCells (2 + i) p) (2 + i) c := by
  unfold createExcelReport
  rw [lastCellAt_append]
  have hhdr : lastCellAt headerCells (2 + i) c = none := by
    apply lastCellAt_of_row_ne
    intro k hk
    rw [mem_headerCells_row k hk]
    omega
  rw [hhdr, Option.or_none]
  exact dataCells_lookup papers 2 i p h c

theorem report_header_lookup (papers : List Paper) (c : Nat) :
    lastCellAt (createExcelReport papers) 1 c = lastCellAt headerCells 1 c := by
  unfold createExcelReport
  rw [lastCellAt_append]
  have hdata : lastCellAt (dataCells 2 papers) 1 c = none := by
    apply lastCellAt_of_row_ne
    intro k hk
    have h2 := dataCells_row_ge k papers 2 hk
    omega
  rw [hdata, Option.none_or]

theorem paperCells_cols (r : Nat) (p : Paper) :
    lastCellAt (paperCells r p) r 1 = some ⟨r, 1, "", none⟩ ∧
      lastCellAt (paperCells r p) r 2 = some ⟨r, 2, "", none⟩ ∧
      lastCellAt (paperCells r p) r 3 = some ⟨r, 3, "", none⟩ ∧
      lastCellAt (paperCells r p) r 4 = some ⟨r, 4, createSummary p.title 7, none⟩ ∧
      lastCellAt (paperCells r p) r 5 =
        some ⟨r, 5, extractLastAuthorName p.authors, none⟩ ∧
      lastCellAt (paperCells r p) r 6 = some ⟨r, 6, p.journal, none⟩ ∧
      lastCellAt (paperCells r p) r 7 =
        some ⟨r, 7, createKeyFindings p.title 20, none⟩ ∧
      lastCellAt (paperCells r p) r 8 = some ⟨r, 8, "", none⟩ ∧
      lastCellAt (paperCells r p) r 9 = some ⟨r, 9, "", none⟩ ∧
      (excelLink p ≠ "" →
        lastCellAt (paperCells r p) r 10 =
          some ⟨r, 10, excelLink p, some (excelLink p)⟩) ∧
      (excelLink p = "" → lastCellAt (paperCells r p) r 10 = none) := by
  by_cases hl : excelLink p = "" <;>
    · unfold paperCells lastCellAt
      simp [hl]

/-- Claim C6: in the rendered spreadsheet, row 1 carries the header
labels and the data row for the `i`-th paper sits at row `2 + i` (one
row per record, in list order), with columns A–C blank, D the short
summary, E the primary-author name, F the venue, G the key-finding
string, H–I blank, and J the DOI-based URL as a true hyperlink when a
DOI is present, else the PMID-based URL when a PMID is present, else a
blank cell with no hyperlink and no error. -/
theorem createExcelReport_spec (papers : List Paper) (i : Nat) (p : Paper)
    (h : papers.get? i = some p) : excelRowSpec papers i p := by
  have hdat := report_data_lookup papers i p h
  have hcols := paperCells_cols (2 + i) p
  unfold excelRowSpec
  refine ⟨?_, ?_, ?_, ?_, ?_, ?_, ?_, ?_, ?_, ?_, ?_, ?_, ?_, ?_, ?_, ?_, ?_⟩
  · unfold cellValueAt; rw [report_header_lookup papers 4]; rfl
  · unfold cellValueAt; rw [report_header_lookup papers 5]; rfl
  · unfold cellValueAt; rw [report_header_lookup papers 6]; rfl
  · unfold cellValueAt; rw [report_header_lookup papers 7]; rfl
  · unfold cellValueAt; rw [report_header_lookup papers 10]; rfl
  · unfold cellValueAt; rw [hdat 1, hcols.1]
  · unfold cellValueAt; rw [hdat 2, hcols.2.1]
  · unfold cellValueAt; rw [hdat 3, hcols.2.2.1]
  · unfold cellValueAt; rw [hdat 4, hcols.2.2.2.1]
  · unfold cellValueAt; rw [hdat 5, hcols.2.2.2.2.1]
  · unfold cellValueAt; rw [hdat 6, hcols.2.2.2.2.2.1]
  · unfold cellValueAt; rw [hdat 7, hcols.2.2.2.2.2.2.1]
  · unfold cellValueAt; rw [hdat 8, hcols.2.2.2.2.2.2.2.1]
  · unfold cellValueAt; rw [hdat 9, hcols.2.2.2.2.2.2.2.2.1]
  · intro hdoi
    have hlink : excelLink p = "https://doi.org/" ++ p.doi := by
      unfold excelLink
      rw [if_pos hdoi]
    have hne : excelLink p ≠ "" := by
      rw [hlink]
      exact string_append_ne_empty _ _ (by decide)
    have h10 := hcols.2.2.2.2.2.2.2.2.2.1 hne
    constructor
    · unfold cellValueAt
      rw [hdat 10, h10]
      exact hlink
    · unfold cellHyperlinkAt
      rw [hdat 10, h10]
      exact congrArg some hlink
  · intro hdoi hpmid
    have hlink : excelLink p = "https://pubmed.ncbi.nlm.nih.gov/" ++ p.pmid ++ "/" := by
      unfold excelLink
      rw [if_neg (not_not_intro hdoi), if_pos hpmid]
    have hne : excelLink p ≠ "" := by
      rw [hlink]
      exact string_append_ne_empty _ _ (string_append_ne_empty _ _ (by decide))
    have h10 := hcols.2.2.2.2.2.2.2.2.2.1 hne
    constructor
    · unfold cellValueAt
      rw [hdat 10, h10]
      exact hlink
    · unfold cellHyperlinkAt
      rw [hdat 10, h10]
      exact congrArg some hlink
  · intro hdoi hpmid
    have hlink : excelLink p = "" := by
      unfold excelLink
      rw [if_neg (not_not_intro hdoi), if_neg (not_not_intro hpmid)]
    have h10 := hcols.2.2.2.2.2.2.2.2.2.2 hlink
    constructor
    · unfold cellValueAt
      rw [hdat 10, h10]
    · unfold cellHyperlinkAt
      rw [hdat 10, h10]

/-- Claim C6 witness: the row contract instantiated on a one-paper
list whose record carries both identifiers. -/
theorem createExcelReport_spec_witness :
    ([paperA].get? 0 = some paperA) ∧ excelRowSpec [paperA] 0 paperA :=
  ⟨rfl, createExcelReport_spec [paperA] 0 paperA rfl⟩

end Setbp1
